import Mathlib

set_option maxRecDepth 100000

/-!
Verification of the utility layer of an HTTP/1.1 parser: character-class
lookup tables, the hex-nibble decoder, the error-string catalog, the default
configuration, and the case-insensitive span/header comparison helpers.

The definitions below are a shallow embedding of the C sources (`util.c`,
`h11.h`, `h11_internal.h`): C byte values become `Nat` (reduced mod 256 where
the code casts to `u8`), C `NULL`-able pointers become `Option`, byte buffers
and C strings become `List Nat`, and the 256-entry lookup tables become
256-element lists built from the same row macros the C file uses.
-/

namespace H11

/-- The C row macro `Z16`: sixteen zero entries. -/
def Z16 : List Nat := [0, 0, 0, 0, 0, 0, 0, 0, 0, 0, 0, 0, 0, 0, 0, 0]

/-- The C row macro `O16`: sixteen one entries. -/
def O16 : List Nat := [1, 1, 1, 1, 1, 1, 1, 1, 1, 1, 1, 1, 1, 1, 1, 1]

/-- `h11_tchar_table` from util.c, row for row. -/
def h11_tchar_table : List Nat :=
  Z16 ++ Z16 ++
  [0, 1, 0, 1, 1, 1, 1, 1, 0, 0, 1, 1, 0, 1, 1, 0] ++
  [1, 1, 1, 1, 1, 1, 1, 1, 1, 1, 0, 0, 0, 0, 0, 0] ++
  [0, 1, 1, 1, 1, 1, 1, 1, 1, 1, 1, 1, 1, 1, 1, 1] ++
  [1, 1, 1, 1, 1, 1, 1, 1, 1, 1, 1, 0, 0, 0, 1, 1] ++
  O16 ++
  [1, 1, 1, 1, 1, 1, 1, 1, 1, 1, 1, 0, 1, 0, 1, 0] ++
  Z16 ++ Z16 ++ Z16 ++ Z16 ++ Z16 ++ Z16 ++ Z16 ++ Z16

/-- `h11_vchar_table` from util.c, row for row. -/
def h11_vchar_table : List Nat :=
  [0, 0, 0, 0, 0, 0, 0, 0, 0, 1, 0, 0, 0, 0, 0, 0] ++
  Z16 ++
  O16 ++ O16 ++ O16 ++ O16 ++ O16 ++
  [1, 1, 1, 1, 1, 1, 1, 1, 1, 1, 1, 1, 1, 1, 1, 0] ++
  O16 ++ O16 ++ O16 ++ O16 ++ O16 ++ O16 ++ O16 ++ O16

/-- `h11_digit_table` from util.c, row for row. -/
def h11_digit_table : List Nat :=
  Z16 ++ Z16 ++ Z16 ++
  [1, 1, 1, 1, 1, 1, 1, 1, 1, 1, 0, 0, 0, 0, 0, 0] ++
  Z16 ++ Z16 ++ Z16 ++ Z16 ++ Z16 ++ Z16 ++ Z16 ++ Z16 ++
  Z16 ++ Z16 ++ Z16 ++ Z16

/-- `h11_hexdig_table` from util.c, row for row. -/
def h11_hexdig_table : List Nat :=
  Z16 ++ Z16 ++ Z16 ++
  [1, 1, 1, 1, 1, 1, 1, 1, 1, 1, 0, 0, 0, 0, 0, 0] ++
  [0, 1, 1, 1, 1, 1, 1, 0, 0, 0, 0, 0, 0, 0, 0, 0] ++
  Z16 ++
  [0, 1, 1, 1, 1, 1, 1, 0, 0, 0, 0, 0, 0, 0, 0, 0] ++
  Z16 ++ Z16 ++ Z16 ++ Z16 ++ Z16 ++ Z16 ++ Z16 ++ Z16 ++ Z16

/-- `h11_uri_table` from util.c, row for row. -/
def h11_uri_table : List Nat :=
  Z16 ++ Z16 ++
  [0, 1, 0, 0, 1, 1, 1, 1, 1, 1, 1, 1, 1, 1, 1, 1] ++
  [1, 1, 1, 1, 1, 1, 1, 1, 1, 1, 1, 1, 0, 1, 0, 0] ++
  O16 ++
  [1, 1, 1, 1, 1, 1, 1, 1, 1, 1, 1, 0, 0, 0, 0, 1] ++
  [0, 1, 1, 1, 1, 1, 1, 1, 1, 1, 1, 1, 1, 1, 1, 1] ++
  [1, 1, 1, 1, 1, 1, 1, 1, 1, 1, 1, 0, 0, 0, 1, 0] ++
  Z16 ++ Z16 ++ Z16 ++ Z16 ++ Z16 ++ Z16 ++ Z16 ++ Z16

/-- `h11_is_tchar` from h11_internal.h: table lookup at the byte value of `c`. -/
def h11_is_tchar (c : Nat) : Bool := h11_tchar_table.getD (c % 256) 0 ≠ 0

/-- `h11_is_vchar` from h11_internal.h. -/
def h11_is_vchar (c : Nat) : Bool := h11_vchar_table.getD (c % 256) 0 ≠ 0

/-- `h11_is_digit` from h11_internal.h. -/
def h11_is_digit (c : Nat) : Bool := h11_digit_table.getD (c % 256) 0 ≠ 0

/-- `h11_is_hexdig` from h11_internal.h. -/
def h11_is_hexdig (c : Nat) : Bool := h11_hexdig_table.getD (c % 256) 0 ≠ 0

/-- `h11_is_uri` from h11_internal.h. -/
def h11_is_uri (c : Nat) : Bool := h11_uri_table.getD (c % 256) 0 ≠ 0

/-- `h11_hexval` from util.c. The argument is the value of the C `char`
read as `unsigned char`; the C function's 32-bit unsigned subtractions
`u - '0'` and `u - 'a'` are modelled as arithmetic mod 2^32. -/
def h11_hexval (c : Nat) : Int :=
  let u := c % 256
  if (u + 2 ^ 32 - 48) % 2 ^ 32 ≤ 9 then
    Int.ofNat ((u + 2 ^ 32 - 48) % 2 ^ 32)
  else
    let u2 := u ||| 0x20
    if (u2 + 2 ^ 32 - 97) % 2 ^ 32 ≤ 5 then
      Int.ofNat ((u2 + 2 ^ 32 - 97) % 2 ^ 32 + 10)
    else
      -1

/-- The configuration flag bits from h11.h. -/
def H11_CFG_STRICT_CRLF : Nat := 1 <<< 0

/-- `H11_CFG_REJECT_OBS_FOLD` from h11.h. -/
def H11_CFG_REJECT_OBS_FOLD : Nat := 1 <<< 1

/-- `H11_CFG_ALLOW_OBS_TEXT` from h11.h. -/
def H11_CFG_ALLOW_OBS_TEXT : Nat := 1 <<< 2

/-- `H11_CFG_ALLOW_LEADING_CRLF` from h11.h. -/
def H11_CFG_ALLOW_LEADING_CRLF : Nat := 1 <<< 3

/-- `H11_CFG_TOLERATE_SPACES` from h11.h. -/
def H11_CFG_TOLERATE_SPACES : Nat := 1 <<< 4

/-- `H11_CFG_REJECT_TE_CL_CONFLICT` from h11.h. -/
def H11_CFG_REJECT_TE_CL_CONFLICT : Nat := 1 <<< 5

/-- `h11_config_t` from h11.h; the unsigned C fields become `Nat`. -/
structure h11_config where
  max_body_size : Nat
  max_request_line_len : Nat
  max_header_line_len : Nat
  max_headers_size : Nat
  max_header_count : Nat
  max_chunk_ext_len : Nat
  flags : Nat
  reserved0 : Nat

/-- `h11_config_default` from util.c; `UINT64_MAX` is 2^64 - 1. -/
def h11_config_default : h11_config :=
  { max_body_size := 2 ^ 64 - 1
    max_request_line_len := 8192
    max_header_line_len := 8192
    max_headers_size := 65536
    max_header_count := 100
    max_chunk_ext_len := 1024
    flags := H11_CFG_STRICT_CRLF ||| H11_CFG_REJECT_OBS_FOLD |||
             H11_CFG_ALLOW_OBS_TEXT ||| H11_CFG_ALLOW_LEADING_CRLF |||
             H11_CFG_REJECT_TE_CL_CONFLICT
    reserved0 := 0 }

/-- `H11_ERR__COUNT` from h11.h: the enum has 33 members before the count. -/
def H11_ERR__COUNT : Nat := 33

/-- `error_names` from util.c, one entry per `H11_ERROR_LIST` row. -/
def error_names : List String :=
  ["H11_OK",
   "H11_NEED_MORE_DATA",
   "H11_ERR_INVALID_METHOD",
   "H11_ERR_INVALID_TARGET",
   "H11_ERR_INVALID_VERSION",
   "H11_ERR_REQUEST_LINE_TOO_LONG",
   "H11_ERR_INVALID_CRLF",
   "H11_ERR_INVALID_HEADER_NAME",
   "H11_ERR_INVALID_HEADER_VALUE",
   "H11_ERR_HEADER_LINE_TOO_LONG",
   "H11_ERR_TOO_MANY_HEADERS",
   "H11_ERR_HEADERS_TOO_LARGE",
   "H11_ERR_OBS_FOLD_REJECTED",
   "H11_ERR_LEADING_WHITESPACE",
   "H11_ERR_MISSING_HOST",
   "H11_ERR_MULTIPLE_HOST",
   "H11_ERR_INVALID_HOST",
   "H11_ERR_INVALID_CONTENT_LENGTH",
   "H11_ERR_MULTIPLE_CONTENT_LENGTH",
   "H11_ERR_CONTENT_LENGTH_OVERFLOW",
   "H11_ERR_INVALID_TRANSFER_ENCODING",
   "H11_ERR_TE_NOT_CHUNKED_FINAL",
   "H11_ERR_TE_CL_CONFLICT",
   "H11_ERR_UNKNOWN_TRANSFER_CODING",
   "H11_ERR_BODY_TOO_LARGE",
   "H11_ERR_INVALID_CHUNK_SIZE",
   "H11_ERR_CHUNK_SIZE_OVERFLOW",
   "H11_ERR_INVALID_CHUNK_EXT",
   "H11_ERR_CHUNK_EXT_TOO_LONG",
   "H11_ERR_INVALID_CHUNK_DATA",
   "H11_ERR_INVALID_TRAILER",
   "H11_ERR_CONNECTION_CLOSED",
   "H11_ERR_INTERNAL"]

/-- `error_messages` from util.c, one entry per `H11_ERROR_LIST` row. -/
def error_messages : List String :=
  ["Success",
   "Need more data",
   "Invalid HTTP method",
   "Invalid request target",
   "Invalid HTTP version",
   "Request line too long",
   "Invalid line ending",
   "Invalid header name",
   "Invalid header value",
   "Header line too long",
   "Too many headers",
   "Headers section too large",
   "Obsolete line folding rejected",
   "Leading whitespace in header section",
   "Missing Host header",
   "Multiple Host headers",
   "Invalid Host header value",
   "Invalid Content-Length value",
   "Conflicting Content-Length values",
   "Content-Length value overflow",
   "Invalid Transfer-Encoding",
   "Transfer-Encoding final coding is not chunked",
   "Transfer-Encoding and Content-Length both present",
   "Unknown transfer coding",
   "Body exceeds maximum size",
   "Invalid chunk size",
   "Chunk size overflow",
   "Invalid chunk extension",
   "Chunk extension too long",
   "Invalid chunk data",
   "Invalid trailer field",
   "Connection closed",
   "Internal error"]

/-- `h11_error_name` from util.c: the C `(unsigned)error` cast is modelled as
`(e % 2 ^ 32).toNat`; an index at least `H11_ERR__COUNT` yields "UNKNOWN",
otherwise the table entry at the index. -/
def h11_error_name (e : Int) : String :=
  if H11_ERR__COUNT ≤ (e % 2 ^ 32).toNat then "UNKNOWN"
  else error_names.getD (e % 2 ^ 32).toNat "UNKNOWN"

/-- `h11_error_message` from util.c, same guard as `h11_error_name`. -/
def h11_error_message (e : Int) : String :=
  if H11_ERR__COUNT ≤ (e % 2 ^ 32).toNat then "UNKNOWN"
  else error_messages.getD (e % 2 ^ 32).toNat "UNKNOWN"

/-- `h11_span_t` from h11.h: an (offset, length) pair into an external
byte buffer. -/
structure h11_span where
  off : Nat
  len : Nat

/-- `h11_header_t` from h11.h. -/
structure h11_header where
  name : h11_span
  value : h11_span
  name_id : Nat
  flags : Nat

/-- A zero-initialized header record, used as the `getD` fallback. -/
def h11_header0 : h11_header := ⟨⟨0, 0⟩, ⟨0, 0⟩, 0, 0⟩

/-- `h11_request_t` from h11.h. The NULL-able `headers` and `trailers`
pointers become `Option (List h11_header)`. -/
structure h11_request where
  method : h11_span
  target : h11_span
  content_length : Nat
  header_count : Nat
  trailer_count : Nat
  version : Nat
  target_form : Nat
  body_type : Nat
  flags : Nat
  known_idx : List Nat
  headers : Option (List h11_header)
  trailers : Option (List h11_header)

/-- A zero-initialized request record. -/
def h11_request0 : h11_request :=
  ⟨⟨0, 0⟩, ⟨0, 0⟩, 0, 0, 0, 0, 0, 0, 0, List.replicate 6 0, none, none⟩

/-- `h11_ascii_fold` from util.c: `c | 0x20` for 'A'–'Z', identity
elsewhere. -/
def h11_ascii_fold (c : Nat) : Nat :=
  if 65 ≤ c ∧ c ≤ 90 then c ||| 0x20 else c

/-- `h11_span_eq_case` from util.c: a NULL base or compare pointer, or a
length mismatch, gives false; otherwise the bytes are compared under
`h11_ascii_fold`. Byte reads are `getD` with fallback 0 (the C code relies
on the caller keeping the span in bounds). -/
def h11_span_eq_case (base : Option (List Nat)) (a : h11_span)
    (b : Option (List Nat)) (blen : Nat) : Bool :=
  match base, b with
  | some bb, some bs =>
    if a.len ≠ blen then false
    else
      (List.range blen).all fun i =>
        h11_ascii_fold (bb.getD (a.off + i) 0) == h11_ascii_fold (bs.getD i 0)
  | _, _ => false

/-- `h11_header_name_eq` from util.c: NULL `cmp` gives false, otherwise a
case-insensitive span comparison against the whole C string (`strlen` is the
list length). -/
def h11_header_name_eq (base : Option (List Nat)) (name : h11_span)
    (cmp : Option (List Nat)) : Bool :=
  match cmp with
  | none => false
  | some c => h11_span_eq_case base name (some c) c.length

/-- `INT_MAX` for the 32-bit C `int`. -/
def INT_MAX : Nat := 2147483647

/-- The scan loop of `h11_find_header` from util.c: index `i` runs upward
while `i < count`; `fuel` bounds the recursion (the caller passes
`fuel = count`, so the loop is never cut short). -/
def h11_find_loop (b n : List Nat) (hs : List h11_header) (count : Nat) :
    Nat → Nat → Int
  | 0, _ => -1
  | fuel + 1, i =>
    if i < count then
      if h11_header_name_eq (some b) (hs.getD i h11_header0).name (some n) = true then
        Int.ofNat i
      else
        h11_find_loop b n hs count fuel (i + 1)
    else -1

/-- `h11_find_header` from util.c: NULL request, base, name, or headers
pointer gives -1; a header count above `INT_MAX` gives -1; otherwise the
first index whose name compares equal, or -1. -/
def h11_find_header (req : Option h11_request) (base : Option (List Nat))
    (name : Option (List Nat)) : Int :=
  match req, base, name with
  | some r, some b, some n =>
    match r.headers with
    | none => -1
    | some hs =>
      if INT_MAX < r.header_count then -1
      else h11_find_loop b n hs r.header_count r.header_count 0
  | _, _, _ => -1

/-- Header `i` of the list matches `n` case-insensitively against base `b`. -/
abbrev hdrMatch (b n : List Nat) (hs : List h11_header) (i : Nat) : Prop :=
  h11_header_name_eq (some b) (hs.getD i h11_header0).name (some n) = true

/-- Each table has exactly 256 entries, as the C array declarations require. -/
theorem tables_length_256 :
    h11_tchar_table.length = 256 ∧ h11_vchar_table.length = 256 ∧
    h11_digit_table.length = 256 ∧ h11_hexdig_table.length = 256 ∧
    h11_uri_table.length = 256 := by decide

/-- C1 counterexample: the code's vchar table accepts the space byte 0x20,
which is neither in 0x21–0x7E nor at least 0x80 (it also accepts HTAB 0x09);
the claim's characterization fails at b = 0x20. -/
theorem vchar_claim_counterexample :
    h11_is_vchar 0x20 = true ∧
    ¬((0x21 ≤ 0x20 ∧ (0x20 : Nat) ≤ 0x7E) ∨ 0x80 ≤ (0x20 : Nat)) := by decide

/-- C1 (amended): for every byte value b, `h11_is_vchar b` returns true if and
only if b is HTAB (0x09), or b is in the range 0x20–0x7E, or b is at least
0x80. -/
theorem h11_is_vchar_characterization :
    ∀ b : Fin 256,
      h11_is_vchar b.val = true ↔
        (b.val = 0x09 ∨ (0x20 ≤ b.val ∧ b.val ≤ 0x7E) ∨ 0x80 ≤ b.val) := by decide

/-- C6: for every byte value b, `h11_is_tchar b` returns true if and only if b
is one of the fifteen symbols `! # $ % & ' * + - . ^ _ \x60 | ~`, an ASCII
digit, or an ASCII letter of either case. -/
theorem h11_is_tchar_characterization :
    ∀ b : Fin 256,
      h11_is_tchar b.val = true ↔
        (b.val ∈ [33, 35, 36, 37, 38, 39, 42, 43, 45, 46, 94, 95, 96, 124, 126] ∨
         (48 ≤ b.val ∧ b.val ≤ 57) ∨
         (65 ≤ b.val ∧ b.val ≤ 90) ∨
         (97 ≤ b.val ∧ b.val ≤ 122)) := by decide

/-- C7: for every byte value b, `h11_is_uri b` returns true if and only if b
is an unreserved character (ASCII letter, digit, `-` `.` `_` `~`), a
sub-delim (`!` `$` `&` `'` `(` `)` `*` `+` `,` `;` `=`), or one of `:` `@`
`/` `%`; in particular `?` (0x3F) and `#` (0x23) are not uri-chars. -/
theorem h11_is_uri_characterization :
    (∀ b : Fin 256,
      h11_is_uri b.val = true ↔
        ((65 ≤ b.val ∧ b.val ≤ 90) ∨ (97 ≤ b.val ∧ b.val ≤ 122) ∨
         (48 ≤ b.val ∧ b.val ≤ 57) ∨
         b.val ∈ [45, 46, 95, 126] ∨
         b.val ∈ [33, 36, 38, 39, 40, 41, 42, 43, 44, 59, 61] ∨
         b.val ∈ [58, 64, 47, 37])) ∧
    h11_is_uri 0x3F = false ∧ h11_is_uri 0x23 = false := by
  refine ⟨by decide, by decide, by decide⟩

/-- C5: `h11_hexval` maps '0'–'9' to 0–9, 'A'–'F' and 'a'–'f' to 10–15, and
every other byte value to -1; it is total over all 256 byte values. -/
theorem h11_hexval_characterization :
    ∀ c : Fin 256,
      h11_hexval c.val =
        if 48 ≤ c.val ∧ c.val ≤ 57 then (c.val : Int) - 48
        else if 65 ≤ c.val ∧ c.val ≤ 70 then (c.val : Int) - 55
        else if 97 ≤ c.val ∧ c.val ≤ 102 then (c.val : Int) - 87
        else -1 := by decide

/-- C3: the default configuration has unlimited max_body_size (UINT64_MAX),
max_request_line_len 8192, max_header_line_len 8192, max_headers_size 65536,
max_header_count 100, max_chunk_ext_len 1024, and flags with STRICT_CRLF,
REJECT_OBS_FOLD, ALLOW_OBS_TEXT, ALLOW_LEADING_CRLF and REJECT_TE_CL_CONFLICT
set and TOLERATE_SPACES clear. -/
theorem h11_config_default_values :
    h11_config_default.max_body_size = 2 ^ 64 - 1 ∧
    h11_config_default.max_request_line_len = 8192 ∧
    h11_config_default.max_header_line_len = 8192 ∧
    h11_config_default.max_headers_size = 65536 ∧
    h11_config_default.max_header_count = 100 ∧
    h11_config_default.max_chunk_ext_len = 1024 ∧
    h11_config_default.flags &&& H11_CFG_STRICT_CRLF ≠ 0 ∧
    h11_config_default.flags &&& H11_CFG_REJECT_OBS_FOLD ≠ 0 ∧
    h11_config_default.flags &&& H11_CFG_ALLOW_OBS_TEXT ≠ 0 ∧
    h11_config_default.flags &&& H11_CFG_ALLOW_LEADING_CRLF ≠ 0 ∧
    h11_config_default.flags &&& H11_CFG_REJECT_TE_CL_CONFLICT ≠ 0 ∧
    h11_config_default.flags &&& H11_CFG_TOLERATE_SPACES = 0 := by decide

/-- No entry of the error tables is the out-of-range sentinel "UNKNOWN". -/
theorem error_tables_ne_unknown :
    ∀ k : Fin 33, error_names.getD k.val "UNKNOWN" ≠ "UNKNOWN" ∧
      error_messages.getD k.val "UNKNOWN" ≠ "UNKNOWN" := by decide

/-- C8: over the whole range of the C `int`, `h11_error_name` and
`h11_error_message` return the table entry (never "UNKNOWN") for every
ordinal in 0 ≤ e < H11_ERR__COUNT, and "UNKNOWN" for every negative or
too-large ordinal. -/
theorem h11_error_strings_total (e : Int)
    (hlo : -(2 ^ 31) ≤ e) (hhi : e < 2 ^ 31) :
    (0 ≤ e ∧ e < (H11_ERR__COUNT : Int) →
       h11_error_name e = error_names.getD e.toNat "UNKNOWN" ∧
       h11_error_name e ≠ "UNKNOWN" ∧
       h11_error_message e = error_messages.getD e.toNat "UNKNOWN" ∧
       h11_error_message e ≠ "UNKNOWN") ∧
    ((e < 0 ∨ (H11_ERR__COUNT : Int) ≤ e) →
       h11_error_name e = "UNKNOWN" ∧ h11_error_message e = "UNKNOWN") := by
  have hcount : (H11_ERR__COUNT : Int) = 33 := by decide
  constructor
  · rintro ⟨h0, h33⟩
    rw [hcount] at h33
    have ht : (e % 2 ^ 32).toNat = e.toNat := by omega
    have hlt : e.toNat < 33 := by omega
    have hguard : ¬ H11_ERR__COUNT ≤ (e % 2 ^ 32).toNat := by
      rw [ht]; simp only [H11_ERR__COUNT]; omega
    have h1 : h11_error_name e = error_names.getD e.toNat "UNKNOWN" := by
      simp only [h11_error_name]
      rw [if_neg hguard, ht]
    have h2 : h11_error_message e = error_messages.getD e.toNat "UNKNOWN" := by
      simp only [h11_error_message]
      rw [if_neg hguard, ht]
    have hne := error_tables_ne_unknown ⟨e.toNat, hlt⟩
    exact ⟨h1, h1 ▸ hne.1, h2, h2 ▸ hne.2⟩
  · intro hout
    rw [hcount] at hout
    have hguard : H11_ERR__COUNT ≤ (e % 2 ^ 32).toNat := by
      simp only [H11_ERR__COUNT]
      rcases hout with hneg | hge <;> omega
    constructor
    · simp only [h11_error_name]
      rw [if_pos hguard]
    · simp only [h11_error_message]
      rw [if_pos hguard]

/-- C8 witness: at the in-range ordinal 2 the name is the symbolic constant,
and at the out-of-range ordinals 999 and -1 both lookups give "UNKNOWN". -/
theorem h11_error_strings_total_witness :
    h11_error_name 2 = "H11_ERR_INVALID_METHOD" ∧
    h11_error_name 999 = "UNKNOWN" ∧ h11_error_message (-1) = "UNKNOWN" := by
  refine ⟨?_, ?_, ?_⟩
  · have h := (h11_error_strings_total 2 (by decide) (by decide)).1
      ⟨by decide, by decide⟩
    exact h.1.trans (by decide)
  · exact ((h11_error_strings_total 999 (by decide) (by decide)).2
      (Or.inr (by decide))).1
  · exact ((h11_error_strings_total (-1) (by decide) (by decide)).2
      (Or.inl (by decide))).2

/-- Folded bytes of the span extract equal the folded compare string exactly
when the lengths agree and the bytes agree pairwise under the fold. -/
theorem map_extract_eq_iff (b n : List Nat) (off len : Nat)
    (hb : off + len ≤ b.length) :
    ((b.drop off).take len).map h11_ascii_fold = n.map h11_ascii_fold ↔
      (len = n.length ∧ ∀ i, i < n.length →
        h11_ascii_fold (b.getD (off + i) 0) = h11_ascii_fold (n.getD i 0)) := by
  have hlen1 : ((b.drop off).take len).length = len := by
    simp only [List.length_take, List.length_drop]
    omega
  constructor
  · intro h
    have hlen : len = n.length := by
      have hl := congrArg List.length h
      rw [List.length_map, List.length_map, hlen1] at hl
      exact hl
    refine ⟨hlen, fun i hi => ?_⟩
    have h1 : i < ((b.drop off).take len).length := by omega
    have hib : off + i < b.length := by omega
    have hel : (((b.drop off).take len).map h11_ascii_fold).getD i 0 =
        ((n.map h11_ascii_fold)).getD i 0 := by rw [h]
    rw [List.getD_eq_getElem _ _ (by simpa using h1),
        List.getD_eq_getElem _ _ (by simpa using hi)] at hel
    rw [List.getElem_map, List.getElem_map, List.getElem_take,
        List.getElem_drop] at hel
    rwa [List.getD_eq_getElem b 0 hib, List.getD_eq_getElem n 0 hi]
  · rintro ⟨hlen, h⟩
    apply List.ext_getElem
      (by rw [List.length_map, List.length_map, hlen1]; exact hlen)
    intro i h1 h2
    have hi : i < n.length := by simpa using h2
    have hib : off + i < b.length := by omega
    rw [List.getElem_map, List.getElem_map, List.getElem_take,
        List.getElem_drop]
    have hx := h i hi
    rwa [List.getD_eq_getElem b 0 hib, List.getD_eq_getElem n 0 hi] at hx

/-- C2: for a span `s` within buffer `b` and a compare string `n`,
`h11_header_name_eq` returns true exactly when the ASCII-lowercased bytes
`b[s.off .. s.off + s.len)` equal the ASCII-lowercased bytes of `n` (so in
particular only when `s.len` equals the length of `n`). -/
theorem h11_header_name_eq_iff_fold (b : List Nat) (s : h11_span)
    (n : List Nat) (hb : s.off + s.len ≤ b.length) :
    h11_header_name_eq (some b) s (some n) = true ↔
      ((b.drop s.off).take s.len).map h11_ascii_fold =
        n.map h11_ascii_fold := by
  simp only [h11_header_name_eq, h11_span_eq_case]
  rw [map_extract_eq_iff b n s.off s.len hb]
  by_cases hlen : s.len = n.length
  · rw [if_neg (not_not_intro hlen)]
    rw [List.all_eq_true]
    constructor
    · intro h
      refine ⟨hlen, fun i hi => ?_⟩
      have hx := h i (List.mem_range.mpr hi)
      rwa [beq_iff_eq] at hx
    · rintro ⟨-, h⟩ i hi
      rw [List.mem_range] at hi
      rw [beq_iff_eq]
      exact h i hi
  · rw [if_pos hlen]
    constructor
    · intro h
      exact (Bool.false_ne_true h).elim
    · rintro ⟨hl, -⟩
      exact absurd hl hlen

/-- C2 witness: the span covering "Host" compares equal, case-insensitively,
to the C string "host". -/
theorem h11_header_name_eq_iff_fold_witness :
    h11_header_name_eq (some [72, 111, 115, 116]) ⟨0, 4⟩
      (some [104, 111, 115, 116]) = true :=
  (h11_header_name_eq_iff_fold [72, 111, 115, 116] ⟨0, 4⟩
    [104, 111, 115, 116] (by decide)).mpr (by decide)

/-- C9: the lookup and comparison operations are total on NULL inputs:
`h11_span_eq_case` is false on a NULL base or compare pointer,
`h11_header_name_eq` is false on a NULL cmp, and `h11_find_header` is -1 on
a NULL request, base, name, or headers pointer. -/
theorem null_inputs_total (r : h11_request) (a : h11_span)
    (b s n : Option (List Nat)) (bl : Nat) :
    h11_span_eq_case none a s bl = false ∧
    h11_span_eq_case b a none bl = false ∧
    h11_header_name_eq b a none = false ∧
    h11_find_header none b n = -1 ∧
    h11_find_header (some r) none n = -1 ∧
    h11_find_header (some r) b none = -1 ∧
    h11_find_header (some { r with headers := none }) b n = -1 := by
  refine ⟨rfl, ?_, rfl, rfl, rfl, ?_, ?_⟩
  · cases b <;> rfl
  · cases b <;> rfl
  · cases b <;> cases n <;> rfl

/-- The scan loop returns the first matching index at or after `i`, or -1
when no index in `[i, count)` matches; `fuel` must cover the remaining
iterations. -/
theorem h11_find_loop_spec (b n : List Nat) (hs : List h11_header)
    (count : Nat) :
    ∀ fuel i, count ≤ i + fuel →
      (∃ j, i ≤ j ∧ j < count ∧ hdrMatch b n hs j ∧
        (∀ k, i ≤ k → k < j → ¬ hdrMatch b n hs k) ∧
        h11_find_loop b n hs count fuel i = Int.ofNat j) ∨
      ((∀ j, i ≤ j → j < count → ¬ hdrMatch b n hs j) ∧
        h11_find_loop b n hs count fuel i = -1) := by
  intro fuel
  induction fuel with
  | zero =>
    intro i hle
    exact Or.inr ⟨fun j hij hjc => absurd hjc (by omega), rfl⟩
  | succ fuel ih =>
    intro i hle
    by_cases hic : i < count
    · by_cases hm : hdrMatch b n hs i
      · refine Or.inl ⟨i, Nat.le_refl i, hic, hm, fun k hik hki => absurd hik (by omega), ?_⟩
        simp only [h11_find_loop]
        rw [if_pos hic, if_pos hm]
      · have hstep : h11_find_loop b n hs count (fuel + 1) i =
            h11_find_loop b n hs count fuel (i + 1) := by
          simp only [h11_find_loop]
          rw [if_pos hic, if_neg hm]
        rcases ih (i + 1) (by omega) with
          ⟨j, hij, hjc, hmj, hmin, heq⟩ | ⟨hall, heq⟩
        · refine Or.inl ⟨j, by omega, hjc, hmj, ?_, hstep.trans heq⟩
          intro k hik hkj
          rcases Nat.eq_or_lt_of_le hik with hk | hk
          · exact hk ▸ hm
          · exact hmin k hk hkj
        · refine Or.inr ⟨?_, hstep.trans heq⟩
          intro j hij hjc
          rcases Nat.eq_or_lt_of_le hij with hj | hj
          · exact hj ▸ hm
          · exact hall j hj hjc
    · refine Or.inr ⟨fun j hij hjc => absurd hjc (by omega), ?_⟩
      simp only [h11_find_loop]
      rw [if_neg hic]

/-- C4 (amended): for a request holding a header list of length
`header_count` at most INT_MAX, `h11_find_header` returns the smallest
matching index, and -1 when no header matches. -/
theorem h11_find_header_first_match (r : h11_request) (b n : List Nat)
    (hs : List h11_header) (hh : r.headers = some hs)
    (hlen : hs.length = r.header_count) (hmax : r.header_count ≤ INT_MAX) :
    (∃ j, j < r.header_count ∧ hdrMatch b n hs j ∧
      (∀ k, k < j → ¬ hdrMatch b n hs k) ∧
      h11_find_header (some r) (some b) (some n) = Int.ofNat j) ∨
    ((∀ j, j < r.header_count → ¬ hdrMatch b n hs j) ∧
      h11_find_header (some r) (some b) (some n) = -1) := by
  have hfh : h11_find_header (some r) (some b) (some n) =
      h11_find_loop b n hs r.header_count r.header_count 0 := by
    simp only [h11_find_header, hh]
    rw [if_neg (by omega)]
  rcases h11_find_loop_spec b n hs r.header_count r.header_count 0 (by omega)
    with ⟨j, -, hjc, hmj, hmin, heq⟩ | ⟨hall, heq⟩
  · exact Or.inl ⟨j, hjc, hmj, fun k hk => hmin k (Nat.zero_le k) hk,
      hfh.trans heq⟩
  · exact Or.inr ⟨fun j hj => hall j (Nat.zero_le j) hj, hfh.trans heq⟩

/-- The buffer "Host" as bytes. -/
def base_host : List Nat := [72, 111, 115, 116]

/-- The C string "host" as bytes. -/
def name_host_lower : List Nat := [104, 111, 115, 116]

/-- A header whose name span covers all of `base_host`. -/
def hdr_host : h11_header := ⟨⟨0, 4⟩, ⟨0, 0⟩, 0, 0⟩

/-- A request with a single header. -/
def req_one : h11_request :=
  { h11_request0 with header_count := 1, headers := some [hdr_host] }

/-- C4 witness: on a request with one header named "Host", looking up "host"
returns index 0. -/
theorem h11_find_header_first_match_witness :
    h11_find_header (some req_one) (some base_host) (some name_host_lower) =
      Int.ofNat 0 := by
  rcases h11_find_header_first_match req_one base_host name_host_lower
      [hdr_host] rfl rfl (by decide) with
    ⟨j, hj, -, -, heq⟩ | ⟨hall, -⟩
  · have hj0 : j = 0 := by
      have : req_one.header_count = 1 := rfl
      omega
    rw [heq, hj0]
  · exact absurd (by decide : hdrMatch base_host name_host_lower [hdr_host] 0)
      (hall 0 (by decide))

/-- A header list longer than INT_MAX, every entry named "Host". -/
def hdrs_big : List h11_header := List.replicate 2147483648 hdr_host

/-- A request whose header_count exceeds INT_MAX. -/
def req_big : h11_request :=
  { h11_request0 with header_count := 2147483648, headers := some hdrs_big }

/-- C4 counterexample: a request with 2^31 headers (one more than INT_MAX)
whose header 0 matches the queried name, yet `h11_find_header` returns -1
rather than the smallest matching index 0. -/
theorem find_header_claim_counterexample :
    req_big.headers = some hdrs_big ∧
    hdrs_big.length = req_big.header_count ∧
    hdrMatch base_host name_host_lower hdrs_big 0 ∧
    0 < req_big.header_count ∧
    h11_find_header (some req_big) (some base_host) (some name_host_lower) =
      -1 := by
  have hc : req_big.header_count = 2147483648 := rfl
  refine ⟨rfl, ?_, ?_, by rw [hc]; omega, ?_⟩
  · simp only [hdrs_big, List.length_replicate, hc]
  · have h0 : hdrs_big.getD 0 h11_header0 = hdr_host := by
      simp only [hdrs_big]
      rw [List.getD_eq_getElem?_getD, List.getElem?_replicate,
        if_pos (by omega : (0 : Nat) < 2147483648)]
      rfl
    show h11_header_name_eq (some base_host)
      (hdrs_big.getD 0 h11_header0).name (some name_host_lower) = true
    rw [h0]
    decide
  · have hh : req_big.headers = some hdrs_big := rfl
    simp only [h11_find_header, hh, hc]
    rw [if_pos (by norm_num [INT_MAX])]

/-- C10: `h11_find_header` returns -1 for every request whose header_count
exceeds INT_MAX, and its result is always either -1 or a nonnegative
matching index at most INT_MAX (hence representable in a C int). -/
theorem h11_find_header_int_range (req : Option h11_request)
    (base name : Option (List Nat)) :
    (∀ r, req = some r → INT_MAX < r.header_count →
        h11_find_header req base name = -1) ∧
    (h11_find_header req base name = -1 ∨
      ∃ i : Nat, i ≤ INT_MAX ∧ h11_find_header req base name = Int.ofNat i ∧
        ∃ r bb nn hs, req = some r ∧ base = some bb ∧ name = some nn ∧
          r.headers = some hs ∧ i < r.header_count ∧ hdrMatch bb nn hs i) := by
  rcases req with - | r
  · exact ⟨fun r h => absurd h (by simp), Or.inl rfl⟩
  rcases base with - | bb
  · exact ⟨fun r' _ _ => rfl, Or.inl rfl⟩
  rcases name with - | nn
  · exact ⟨fun r' _ _ => rfl, Or.inl rfl⟩
  cases hh : r.headers with
  | none =>
    have hf : h11_find_header (some r) (some bb) (some nn) = -1 := by
      simp only [h11_find_header, hh]
    exact ⟨fun r' _ _ => hf, Or.inl hf⟩
  | some hs =>
    by_cases hmax : INT_MAX < r.header_count
    · have hf : h11_find_header (some r) (some bb) (some nn) = -1 := by
        simp only [h11_find_header, hh]
        rw [if_pos hmax]
      exact ⟨fun r' _ _ => hf, Or.inl hf⟩
    · have hf : h11_find_header (some r) (some bb) (some nn) =
          h11_find_loop bb nn hs r.header_count r.header_count 0 := by
        simp only [h11_find_header, hh]
        rw [if_neg hmax]
      refine ⟨fun r' hr' hcnt => ?_, ?_⟩
      · have : r' = r := by injection hr' with h; exact h.symm
        subst this
        exact absurd hcnt hmax
      · rcases h11_find_loop_spec bb nn hs r.header_count r.header_count 0
          (by omega) with ⟨j, -, hjc, hmj, -, heq⟩ | ⟨-, heq⟩
        · exact Or.inr ⟨j, by omega, hf.trans heq,
            r, bb, nn, hs, rfl, rfl, rfl, hh, hjc, hmj⟩
        · exact Or.inl (hf.trans heq)

end H11
